import Mathlib

/-!
Verification of the weather-dashboard fetch/normalize logic
(`src/streamlit_app.py`) against its specification.

The Python code is shallowly embedded: JSON values become an inductive
`Json`; an HTTP response becomes `HttpResponse` (status, optional parsed
body, raw text, and the JSON decoder error text used when the body does
not parse); the outcome of a `requests.get` call is `Except String
HttpResponse`, where `Except.error d` models a raised
`requests.RequestException` whose string form is `d`.  A pandas
DataFrame is modelled column-major as a list of named cell columns.
Functions that the Python code can exit with an unhandled exception
return an `Option`, with `none` standing for a raised exception.
-/

/-- Parsed JSON values.  `Json.null` is Python `None`; object fields keep
the insertion order that Python dict / JSON parsing preserves. -/
inductive Json where
  | null : Json
  | bool : Bool → Json
  | num : Int → Json
  | str : String → Json
  | arr : List Json → Json
  | obj : List (String × Json) → Json

/-- Python truthiness (`if x:`) of a decoded JSON value. -/
def pyTruthy : Json → Bool
  | Json.null => false
  | Json.bool b => b
  | Json.num n => n != 0
  | Json.str s => s != ""
  | Json.arr l => !l.isEmpty
  | Json.obj fs => !fs.isEmpty

mutual

/-- Python `repr` of a decoded JSON value (string escaping inside quotes
is not modelled; no claim exercises it). -/
def pyRepr : Json → String
  | Json.null => "None"
  | Json.bool b => if b then "True" else "False"
  | Json.num n => toString n
  | Json.str s => "\x27" ++ s ++ "\x27"
  | Json.arr l => "[" ++ String.intercalate ", " (pyReprList l) ++ "]"
  | Json.obj fs => "\x7b" ++ String.intercalate ", " (pyReprFields fs) ++ "\x7d"

/-- `repr` of each element of a Python list. -/
def pyReprList : List Json → List String
  | [] => []
  | j :: rest => pyRepr j :: pyReprList rest

/-- `repr` of each key-value pair of a Python dict. -/
def pyReprFields : List (String × Json) → List String
  | [] => []
  | (k, v) :: rest => ("\x27" ++ k ++ "\x27: " ++ pyRepr v) :: pyReprFields rest

end

/-- Python `str` of a decoded JSON value: identity on strings, `repr`
otherwise (matching `str(None)`, `str(True)`, `str(5)`, `str(dict)`, …). -/
def pyStr : Json → String
  | Json.str s => s
  | j => pyRepr j

/-- One HTTP response as seen by the fetchers.  `body` is `some j` when
`response.json()` parses the body as `j`, `none` when parsing raises;
`decodeErr` is the string form of that parse exception; `text` is
`response.text`. -/
structure HttpResponse where
  status : Nat
  body : Option Json
  text : String
  decodeErr : String

/-- The error-message extraction both fetchers perform on a non-200
response: `err_json.get("message") or str(err_json)` when the body
parses as a dict — any exception in that block (body not JSON, or body
JSON but not a dict, so that `.get` raises) falls back to
`response.text`. -/
def httpErrorMessage (r : HttpResponse) : String :=
  match r.body with
  | some (Json.obj fs) =>
    match fs.lookup "message" with
    | some v => if pyTruthy v then pyStr v else pyRepr (Json.obj fs)
    | none => pyRepr (Json.obj fs)
  | _ => r.text

/-- The full error string `f"HTTP {response.status_code}: {message}"`
(braces as in the Python f-string). -/
def httpError (r : HttpResponse) : String :=
  "HTTP " ++ toString r.status ++ ": " ++ httpErrorMessage r

/-- `fetch_current_weather`, with the network interaction abstracted to
its outcome `net`.  On 200 it returns `response.json()` paired with
`None`; a JSON `null` body therefore yields a `None` payload (Python
`json.loads("null")` is `None`), and an unparseable 200 body raises
`requests.JSONDecodeError`, a `RequestException`, caught by the outer
handler.  On non-200 it returns the extracted HTTP error string; on a
raised `RequestException` it returns the network-error string. -/
def fetch_current_weather (city apiKey units lang : String)
    (net : Except String HttpResponse) : Option Json × Option String :=
  match net with
  | Except.error exc => (none, some ("Network error: " ++ exc))
  | Except.ok r =>
    if r.status = 200 then
      match r.body with
      | some Json.null => (none, none)
      | some j => (some j, none)
      | none => (none, some ("Network error: " ++ r.decodeErr))
    else
      (none, some (httpError r))

/-- A cell of the flattened forecast table: `nan` is the missing-value
marker `json_normalize` inserts, `jval` a JSON value carried through,
`dtime` a UNIX timestamp converted by `pd.to_datetime(..., unit="s")`. -/
inductive Cell where
  | nan : Cell
  | jval : Json → Cell
  | dtime : Int → Cell

/-- A DataFrame, column-major: column names in order, each with its
cells (one per row). -/
abbrev Table := List (String × List Cell)

mutual

/-- Record flattening as `pd.json_normalize` performs it on one record:
nested dict values are merged into the parent under dot-separated keys;
non-dict values (lists included) are kept as they are. -/
def flattenPairs : List (String × Json) → List (String × Json)
  | [] => []
  | (k, v) :: rest => flattenOne k v ++ flattenPairs rest

/-- Flattening of a single field: a dict value contributes its
flattened fields under dot-joined keys, any other value is kept. -/
def flattenOne (k : String) : Json → List (String × Json)
  | Json.obj fs => (flattenPairs fs).map (fun p => (k ++ "." ++ p.1, p.2))
  | v => [(k, v)]

end

/-- Column names of `pd.json_normalize` over a record list: union of the
flattened keys, in order of first appearance. -/
def recKeys (recs : List (List (String × Json))) : List String :=
  ((recs.map (fun r => r.map Prod.fst)).flatten).foldl
    (fun acc k => if acc.contains k then acc else acc ++ [k]) []

/-- `pd.json_normalize` over a list of records: one column per flattened
key, `nan` where a record lacks the key. -/
def jsonNormalize (recs : List (List (String × Json))) : Table :=
  let flat := recs.map flattenPairs
  (recKeys flat).map (fun c =>
    (c, flat.map (fun r =>
      match r.lookup c with
      | some v => Cell.jval v
      | none => Cell.nan)))

/-- `DataFrame.add_prefix`: prefix every column name. -/
def tagCols (tag : String) (t : Table) : Table :=
  t.map (fun col => (tag ++ col.1, col.2))

/-- Fields of a JSON object (empty for non-objects). -/
def objFields : Json → List (String × Json)
  | Json.obj fs => fs
  | _ => []

/-- Dict lookup on a forecast entry. -/
def entryLookup (e : Json) (k : String) : Option Json :=
  (objFields e).lookup k

/-- The fields of the sub-object stored under `k` in an entry. -/
def entrySub (e : Json) (k : String) : List (String × Json) :=
  objFields ((entryLookup e k).getD (Json.obj []))

/-- The per-entry lambda over the weather value: its first element when
it is a non-empty list, an empty record when the list is empty or the
value is not a list. -/
def weather_main (e : Json) : Json :=
  match entryLookup e "weather" with
  | some (Json.arr (h :: _)) => h
  | _ => Json.obj []

/-- The entry's numeric `dt` timestamp (well-formed entries always carry
one). -/
def entryDt (e : Json) : Int :=
  match entryLookup e "dt" with
  | some (Json.num n) => n
  | _ => 0

/-- The entry's `dt_txt` value. -/
def entryDtTxt (e : Json) : Json :=
  (entryLookup e "dt_txt").getD Json.null

/-- Is the value a JSON object? -/
def isObj : Json → Bool
  | Json.obj _ => true
  | _ => false

/-- Is the value a JSON number? -/
def isNum : Json → Bool
  | Json.num _ => true
  | _ => false

/-- If the weather value is a non-empty list, its first element must be
a record (otherwise `json_normalize` raises on it). -/
def weatherHeadOk : Json → Bool
  | Json.arr (h :: _) => isObj h
  | _ => true

/-- The domain on which the pandas pipeline of `fetch_forecast` is
guaranteed to run without raising and without NaN/NaT artifacts in the
fixed columns: every entry is a dict with a numeric `dt`, a `dt_txt`,
dict `main`, `wind` and `clouds` sub-objects, and a `weather` value
whose first element, if it is a non-empty list, is a record.  Outside
this domain the pipeline raises (e.g. `KeyError` on a missing top-level
column, `AttributeError` in `json_normalize` on NaN records), modelled
below as an unhandled exception. -/
def wellFormedEntry (e : Json) : Bool :=
  match e with
  | Json.obj fs =>
    (match fs.lookup "dt" with | some v => isNum v | none => false) &&
    (fs.lookup "dt_txt").isSome &&
    (match fs.lookup "main" with | some v => isObj v | none => false) &&
    (match fs.lookup "wind" with | some v => isObj v | none => false) &&
    (match fs.lookup "weather" with | some v => weatherHeadOk v | none => false) &&
    (match fs.lookup "clouds" with | some v => isObj v | none => false)
  | _ => false

/-- The `pd.concat([...], axis=1)` step of `fetch_forecast`: the `dt`
column (timestamps converted), the `dt_txt` column, then the normalized
`main`, `wind`, first-weather and `clouds` sub-tables, each with its
dot prefix. -/
def forecastBase (items : List Json) : Table :=
  ("dt", items.map (fun e => Cell.dtime (entryDt e))) ::
  ("dt_txt", items.map (fun e => Cell.jval (entryDtTxt e))) ::
  (tagCols "main." (jsonNormalize (items.map (fun e => entrySub e "main"))) ++
   tagCols "wind." (jsonNormalize (items.map (fun e => entrySub e "wind"))) ++
   tagCols "weather." (jsonNormalize (items.map (fun e => objFields (weather_main e)))) ++
   tagCols "clouds." (jsonNormalize (items.map (fun e => entrySub e "clouds"))))

/-- The five guaranteed columns and their defaults from the
`for col, default in [...]` loop: Python `None` for the numeric ones,
the empty string for the description. -/
def defaultCols : List (String × Cell) :=
  [("main.temp", Cell.jval Json.null),
   ("main.feels_like", Cell.jval Json.null),
   ("main.humidity", Cell.jval Json.null),
   ("wind.speed", Cell.jval Json.null),
   ("weather.description", Cell.jval (Json.str ""))]

/-- The defaulting loop: for each listed column absent from the table,
append it filled with its default (appending a scalar to an n-row
DataFrame replicates it). -/
def applyDefaults (n : Nat) : Table → List (String × Cell) → Table
  | t, [] => t
  | t, d :: ds =>
    applyDefaults n
      (if (t.lookup d.1).isSome then t else t ++ [(d.1, List.replicate n d.2)]) ds

/-- The full normalized forecast table for a list of entries. -/
def forecastTable (items : List Json) : Table :=
  applyDefaults items.length (forecastBase items) defaultCols

/-- `fetch_forecast`, network interaction abstracted as in
`fetch_current_weather`.  The outer `Option` models unhandled
exceptions of the pandas pipeline (`none` = the call raises): a 200
body that is not a dict makes `data.get` raise, and entries outside
`wellFormedEntry` make the flattening raise. -/
def fetch_forecast (city apiKey units lang : String)
    (net : Except String HttpResponse) :
    Option (Option Table × Option String) :=
  match net with
  | Except.error exc => some (none, some ("Network error: " ++ exc))
  | Except.ok r =>
    if r.status ≠ 200 then
      some (none, some (httpError r))
    else
      match r.body with
      | none => some (none, some ("Network error: " ++ r.decodeErr))
      | some (Json.obj fs) =>
        let listItems := (fs.lookup "list").getD (Json.arr [])
        if pyTruthy listItems = false then
          some (none, some "Empty forecast list from API")
        else
          match listItems with
          | Json.arr items =>
            if items.all wellFormedEntry then
              some (some (forecastTable items), none)
            else
              none
          | _ => none
      | some _ => none

/-- Python truthiness of an optional string (`None` and `""` are
falsy). -/
def pyStrOptTruthy : Option String → Bool
  | none => false
  | some s => !(s == "")

/-- `get_api_key_from_env_or_ui`, with its three sources abstracted to
their outcomes: `secrets` is what `st.secrets.get("OPENWEATHER_API_KEY")`
does (`Except.error` models a raised exception, in which case the code
resets the key to `None`), `env` is `os.getenv("OPENWEATHER_API_KEY")`,
and `ui` is the string the masked `st.sidebar.text_input` yields (the
empty string when nothing was entered).  A later source replaces the
key only when the current key is falsy (`None` or empty). -/
def get_api_key_from_env_or_ui (secrets : Except Unit (Option String))
    (env : Option String) (ui : String) : Option String × Bool :=
  let k1 : Option String :=
    match secrets with
    | Except.error _ => none
    | Except.ok v => v
  let from_secrets := pyStrOptTruthy k1
  let k2 := if pyStrOptTruthy k1 then k1 else env
  let k3 := if pyStrOptTruthy k2 then k2 else some ui
  (k3, from_secrets)

/-- Python truthiness of an optional JSON value, `none` standing for a
`dict.get` miss (Python `None`). -/
def pyOptTruthy : Option Json → Bool
  | none => false
  | some v => pyTruthy v

/-- The location string built from a name value and the fields of the
`sys` sub-object: the f-string when the name is truthy, the em-dash
placeholder otherwise.  The country defaults to the empty string when
`sys` has no `country` key. -/
def locString (name : Option Json) (sfs : List (String × Json)) : String :=
  if pyOptTruthy name then
    pyStr (name.getD Json.null) ++ ", " ++ pyStr ((sfs.lookup "country").getD (Json.str ""))
  else
    "—"

/-- `format_location_block`.  The result is `none` when the Python code
raises: `current.get` requires `current` to be a dict, and
`sys_info.get` requires the `sys` value, when the key is present, to be
a dict (the default empty dict is used only when the key is absent). -/
def format_location_block (current : Json) : Option String :=
  match current with
  | Json.obj fs =>
    (match fs.lookup "sys" with
     | none => some (locString (fs.lookup "name") [])
     | some (Json.obj sfs) => some (locString (fs.lookup "name") sfs)
     | some _ => none)
  | _ => none

/-- The four-string argument tuple both fetchers are keyed by:
(city, api_key, units, lang). -/
abbrev ReqParams := String × String × String × String

/-- A memoization table from argument tuples to fetcher results. -/
abbrev MemoTable (β : Type) := List (ReqParams × β)

/-- Dictionary lookup in the memoization table by exact argument
tuple. -/
def memoFind {β : Type} (p : ReqParams) : MemoTable β → Option β
  | [] => none
  | (q, v) :: rest => if q = p then some v else memoFind p rest

/-- Modelled from the spec: the `st.cache_data` decorator (library code,
not part of the source tree) memoizes the decorated function by its
full argument tuple, so identical requests within a session do not
re-hit the network.  `net` gives the network outcome a request with the
given arguments would observe; the returned flag records whether the
underlying (network-hitting) function body ran. -/
def cachedFetchCurrent (net : ReqParams → Except String HttpResponse)
    (cache : MemoTable (Option Json × Option String)) (p : ReqParams) :
    (Option Json × Option String) × MemoTable (Option Json × Option String) × Bool :=
  match memoFind p cache with
  | some v => (v, cache, false)
  | none =>
    let v := fetch_current_weather p.1 p.2.1 p.2.2.1 p.2.2.2 (net p)
    (v, (p, v) :: cache, true)

/-- Modelled from the spec: the same `st.cache_data` memoization wrapped
around `fetch_forecast`. -/
def cachedFetchForecast (net : ReqParams → Except String HttpResponse)
    (cache : MemoTable (Option (Option Table × Option String))) (p : ReqParams) :
    Option (Option Table × Option String) ×
      MemoTable (Option (Option Table × Option String)) × Bool :=
  match memoFind p cache with
  | some v => (v, cache, false)
  | none =>
    let v := fetch_forecast p.1 p.2.1 p.2.2.1 p.2.2.2 (net p)
    (v, (p, v) :: cache, true)

/-- The non-200 message cascade as the specification words it (the
refinement variant to compare `httpErrorMessage` against): the parsed
body's `message` field when the body parses as JSON with a non-empty
message, otherwise the string form of the parsed body, otherwise the
raw response text. -/
def specNon200Message (r : HttpResponse) : String :=
  match r.body with
  | some j =>
    match j with
    | Json.obj fs =>
      (match fs.lookup "message" with
       | some v => if pyTruthy v then pyStr v else pyStr (Json.obj fs)
       | none => pyStr (Json.obj fs))
    | _ => pyStr j
  | none => r.text

/-! ### Helper lemmas -/

theorem strAppend_ne_empty (a b : String) (h : a ≠ "") : a ++ b ≠ "" := by
  intro he
  apply h
  have hd := congrArg String.data he
  rw [String.data_append] at hd
  exact String.ext (List.append_eq_nil.mp hd).1

theorem httpError_ne_empty (r : HttpResponse) : httpError r ≠ "" := by
  unfold httpError
  apply strAppend_ne_empty
  apply strAppend_ne_empty
  apply strAppend_ne_empty
  decide

theorem lookup_append_isSome {β : Type} (k : String) (t u : List (String × β))
    (h : (t.lookup k).isSome) : (t ++ u).lookup k = t.lookup k := by
  induction t with
  | nil => simp [List.lookup] at h
  | cons a rest ih =>
    obtain ⟨k1, v1⟩ := a
    rw [List.cons_append]
    by_cases h1 : (k == k1) = true
    · simp [List.lookup, h1]
    · have h1f : (k == k1) = false := by simpa using h1
      simp only [List.lookup, h1f] at h ⊢
      exact ih h

theorem lookup_append_of_none {β : Type} (k : String) (t u : List (String × β))
    (h : t.lookup k = none) : (t ++ u).lookup k = u.lookup k := by
  induction t with
  | nil => simp
  | cons a rest ih =>
    obtain ⟨k1, v1⟩ := a
    by_cases h1 : (k == k1) = true
    · simp [List.lookup, h1] at h
    · have h1f : (k == k1) = false := by simpa using h1
      rw [List.cons_append]
      simp only [List.lookup, h1f] at h ⊢
      exact ih h

theorem lookup_singleton_self {β : Type} (k : String) (v : β) :
    ([(k, v)] : List (String × β)).lookup k = some v := by
  simp [List.lookup]

theorem applyDefaults_eq_append (ds : List (String × Cell)) :
    ∀ (n : Nat) (t : Table), ∃ ext, applyDefaults n t ds = t ++ ext := by
  induction ds with
  | nil => intro n t; exact ⟨[], by simp [applyDefaults]⟩
  | cons d rest ih =>
    intro n t
    rw [applyDefaults]
    by_cases hd : ((t.lookup d.1).isSome) = true
    · rw [if_pos hd]; exact ih n t
    · rw [if_neg hd]
      obtain ⟨ext, hext⟩ := ih n (t ++ [(d.1, List.replicate n d.2)])
      exact ⟨[(d.1, List.replicate n d.2)] ++ ext, by rw [hext, List.append_assoc]⟩

theorem applyDefaults_lookup_of_isSome (ds : List (String × Cell)) (n : Nat) (t : Table)
    (k : String) (h : (t.lookup k).isSome) :
    (applyDefaults n t ds).lookup k = t.lookup k := by
  obtain ⟨ext, hext⟩ := applyDefaults_eq_append ds n t
  rw [hext]
  exact lookup_append_isSome k t ext h

theorem applyDefaults_mem_isSome (ds : List (String × Cell)) :
    ∀ (n : Nat) (t : Table) (d : String × Cell), d ∈ ds →
      ((applyDefaults n t ds).lookup d.1).isSome = true := by
  induction ds with
  | nil => intro n t d hd; simp at hd
  | cons d0 rest ih =>
    intro n t d hd
    rw [applyDefaults]
    rcases List.mem_cons.mp hd with rfl | hmem
    · by_cases hs : ((t.lookup d.1).isSome) = true
      · rw [if_pos hs, applyDefaults_lookup_of_isSome rest n t d.1 hs]
        exact hs
      · rw [if_neg hs]
        have hn : t.lookup d.1 = none := by
          cases hl : t.lookup d.1 with
          | none => rfl
          | some v => rw [hl] at hs; simp at hs
        have h2 : (t ++ [(d.1, List.replicate n d.2)]).lookup d.1
            = some (List.replicate n d.2) := by
          rw [lookup_append_of_none _ _ _ hn]
          exact lookup_singleton_self _ _
        rw [applyDefaults_lookup_of_isSome rest n _ d.1 (by rw [h2]; rfl), h2]
        rfl
    · exact ih n _ d hmem

theorem applyDefaults_lookup_default (ds : List (String × Cell)) :
    ∀ (n : Nat) (t : Table) (d : String × Cell), (ds.map Prod.fst).Nodup → d ∈ ds →
      t.lookup d.1 = none →
      (applyDefaults n t ds).lookup d.1 = some (List.replicate n d.2) := by
  induction ds with
  | nil => intro n t d _ hd _; simp at hd
  | cons d0 rest ih =>
    intro n t d hnd hd hnone
    rw [applyDefaults]
    rcases List.mem_cons.mp hd with rfl | hmem
    · rw [if_neg (by simp [hnone])]
      have h2 : (t ++ [(d.1, List.replicate n d.2)]).lookup d.1
          = some (List.replicate n d.2) := by
        rw [lookup_append_of_none _ _ _ hnone]
        exact lookup_singleton_self _ _
      rw [applyDefaults_lookup_of_isSome rest n _ d.1 (by rw [h2]; rfl)]
      exact h2
    · have hne : d0.1 ≠ d.1 := by
        intro he
        exact (List.nodup_cons.mp hnd).1 (he ▸ List.mem_map_of_mem Prod.fst hmem)
      have hrest : (rest.map Prod.fst).Nodup := (List.nodup_cons.mp hnd).2
      by_cases hs : ((t.lookup d0.1).isSome) = true
      · rw [if_pos hs]
        exact ih n t d hrest hmem hnone
      · rw [if_neg hs]
        apply ih n _ d hrest hmem
        rw [lookup_append_of_none _ _ _ hnone]
        have hbf : (d.1 == d0.1) = false := beq_eq_false_iff_ne.mpr (Ne.symm hne)
        simp [List.lookup, hbf]

theorem applyDefaults_col_length (ds : List (String × Cell)) :
    ∀ (n : Nat) (t : Table) (col : String × List Cell),
      (∀ c ∈ t, c.2.length = n) → col ∈ applyDefaults n t ds → col.2.length = n := by
  induction ds with
  | nil => intro n t col hall h; rw [applyDefaults] at h; exact hall col h
  | cons d rest ih =>
    intro n t col hall h
    rw [applyDefaults] at h
    by_cases hs : ((t.lookup d.1).isSome) = true
    · rw [if_pos hs] at h
      exact ih n t col hall h
    · rw [if_neg hs] at h
      refine ih n _ col ?_ h
      intro c hc
      rcases List.mem_append.mp hc with hc | hc
      · exact hall c hc
      · simp at hc
        subst hc
        simp

theorem jsonNormalize_col_length (recs : List (List (String × Json)))
    (col : String × List Cell) (h : col ∈ jsonNormalize recs) :
    col.2.length = recs.length := by
  unfold jsonNormalize at h
  obtain ⟨c, _, rfl⟩ := List.mem_map.mp h
  simp

theorem tagNorm_col_length (tag : String) (recs : List (List (String × Json)))
    (col : String × List Cell) (h : col ∈ tagCols tag (jsonNormalize recs)) :
    col.2.length = recs.length := by
  unfold tagCols at h
  obtain ⟨c, hc, rfl⟩ := List.mem_map.mp h
  exact jsonNormalize_col_length recs c hc

theorem forecastBase_col_length (items : List Json) (col : String × List Cell)
    (h : col ∈ forecastBase items) : col.2.length = items.length := by
  unfold forecastBase at h
  rcases List.mem_cons.mp h with rfl | h
  · simp
  rcases List.mem_cons.mp h with rfl | h
  · simp
  rcases List.mem_append.mp h with h | h
  rotate_left
  · have := tagNorm_col_length _ _ _ h
    simpa using this
  rcases List.mem_append.mp h with h | h
  rotate_left
  · have := tagNorm_col_length _ _ _ h
    simpa using this
  rcases List.mem_append.mp h with h | h
  · have := tagNorm_col_length _ _ _ h
    simpa using this
  · have := tagNorm_col_length _ _ _ h
    simpa using this

theorem forecastTable_col_length (items : List Json) (col : String × List Cell)
    (h : col ∈ forecastTable items) : col.2.length = items.length := by
  unfold forecastTable at h
  exact applyDefaults_col_length defaultCols items.length (forecastBase items) col
    (forecastBase_col_length items) h

theorem forecastTable_ne_nil (items : List Json) : forecastTable items ≠ [] := by
  unfold forecastTable
  obtain ⟨ext, hext⟩ := applyDefaults_eq_append defaultCols items.length (forecastBase items)
  rw [hext]
  unfold forecastBase
  simp

/-! ### Flattening lemmas -/

mutual

theorem flattenPairs_not_obj (l : List (String × Json)) :
    ∀ p ∈ flattenPairs l, isObj p.2 = false := by
  match l with
  | [] => intro p hp; simp [flattenPairs] at hp
  | (k, v) :: rest =>
    intro p hp
    rw [flattenPairs] at hp
    rcases List.mem_append.mp hp with h | h
    · exact flattenOne_not_obj k v p h
    · exact flattenPairs_not_obj rest p h

theorem flattenOne_not_obj (k : String) (v : Json) :
    ∀ p ∈ flattenOne k v, isObj p.2 = false := by
  match v with
  | Json.obj fs =>
    intro p hp
    rw [flattenOne] at hp
    obtain ⟨q, hq, rfl⟩ := List.mem_map.mp hp
    exact flattenPairs_not_obj fs q hq
  | Json.null => intro p hp; simp [flattenOne] at hp; simp [hp, isObj]
  | Json.bool b => intro p hp; simp [flattenOne] at hp; simp [hp, isObj]
  | Json.num n => intro p hp; simp [flattenOne] at hp; simp [hp, isObj]
  | Json.str s => intro p hp; simp [flattenOne] at hp; simp [hp, isObj]
  | Json.arr a => intro p hp; simp [flattenOne] at hp; simp [hp, isObj]

end

theorem flattenOne_of_not_obj (k : String) (v : Json) (hv : isObj v = false) :
    flattenOne k v = [(k, v)] := by
  cases v with
  | obj fs => simp [isObj] at hv
  | null => rfl
  | bool b => rfl
  | num n => rfl
  | str s => rfl
  | arr a => rfl

theorem flattenPairs_of_flat (l : List (String × Json))
    (h : ∀ p ∈ l, isObj p.2 = false) : flattenPairs l = l := by
  induction l with
  | nil => rfl
  | cons a rest ih =>
    obtain ⟨k, v⟩ := a
    rw [flattenPairs, flattenOne_of_not_obj k v (h (k, v) (List.mem_cons_self _ _))]
    rw [List.singleton_append, ih (fun p hp => h p (List.mem_cons_of_mem _ hp))]

/-- C8: forecast normalization is idempotent — flattening an
already-flattened forecast record a second time changes neither keys
nor values, because flattening leaves no nested record behind. -/
theorem flatten_idempotent (l : List (String × Json)) :
    flattenPairs (flattenPairs l) = flattenPairs l :=
  flattenPairs_of_flat (flattenPairs l) (flattenPairs_not_obj l)

/-- C7: when the request raises a `RequestException` (DNS failure,
connection refused, timeout), each fetcher returns a `None` payload
with the message `"Network error: "` followed by the exception
details. -/
theorem network_error_result (city apiKey units lang exc : String) :
    fetch_current_weather city apiKey units lang (Except.error exc)
      = (none, some ("Network error: " ++ exc)) ∧
    fetch_forecast city apiKey units lang (Except.error exc)
      = some (none, some ("Network error: " ++ exc)) :=
  ⟨rfl, rfl⟩

/-- C1 counterexample: an HTTP 200 response whose body is the JSON
literal `null` makes `response.json()` return Python `None`, so
`fetch_current_weather` returns both components `None`, contradicting
the claim that this never happens. -/
theorem fetch_current_both_none_on_null_body :
    fetch_current_weather "Almaty" "KEY" "metric" "ru"
      (Except.ok ⟨200, some Json.null, "null", ""⟩) = (none, none) := rfl

/-- C1 (amended): for every input whose response is not an HTTP 200
with a JSON-null body, `fetch_current_weather` returns either a
non-`None` payload with `None` error or a `None` payload with a
non-empty error string; in the excluded case both components are
`None`. -/
theorem fetch_current_payload_error_partition
    (city apiKey units lang : String) (net : Except String HttpResponse)
    (hnn : ∀ r : HttpResponse, net = Except.ok r → r.status = 200 →
      r.body ≠ some Json.null) :
    ((fetch_current_weather city apiKey units lang net).1 ≠ none ∧
      (fetch_current_weather city apiKey units lang net).2 = none) ∨
    ((fetch_current_weather city apiKey units lang net).1 = none ∧
      ∃ s, (fetch_current_weather city apiKey units lang net).2 = some s ∧ s ≠ "") := by
  cases net with
  | error exc =>
    right
    exact ⟨rfl, "Network error: " ++ exc, rfl, strAppend_ne_empty _ _ (by decide)⟩
  | ok r =>
    by_cases hs : r.status = 200
    · cases hb : r.body with
      | none =>
        right
        refine ⟨?_, "Network error: " ++ r.decodeErr, ?_, strAppend_ne_empty _ _ (by decide)⟩
        · simp [fetch_current_weather, hs, hb]
        · simp [fetch_current_weather, hs, hb]
      | some j =>
        cases j with
        | null => exact absurd hb (hnn r rfl hs)
        | bool b => left; constructor <;> simp [fetch_current_weather, hs, hb]
        | num n => left; constructor <;> simp [fetch_current_weather, hs, hb]
        | str s => left; constructor <;> simp [fetch_current_weather, hs, hb]
        | arr a => left; constructor <;> simp [fetch_current_weather, hs, hb]
        | obj fs => left; constructor <;> simp [fetch_current_weather, hs, hb]
    · right
      refine ⟨?_, httpError r, ?_, httpError_ne_empty r⟩
      · simp [fetch_current_weather, hs]
      · simp [fetch_current_weather, hs]

theorem fetch_current_payload_error_partition_witness :
    ((fetch_current_weather "Almaty" "KEY" "metric" "ru"
        (Except.ok ⟨200, some (Json.obj [("name", Json.str "Almaty")]), "", ""⟩)).1 ≠ none ∧
      (fetch_current_weather "Almaty" "KEY" "metric" "ru"
        (Except.ok ⟨200, some (Json.obj [("name", Json.str "Almaty")]), "", ""⟩)).2 = none) ∨
    ((fetch_current_weather "Almaty" "KEY" "metric" "ru"
        (Except.ok ⟨200, some (Json.obj [("name", Json.str "Almaty")]), "", ""⟩)).1 = none ∧
      ∃ s, (fetch_current_weather "Almaty" "KEY" "metric" "ru"
        (Except.ok ⟨200, some (Json.obj [("name", Json.str "Almaty")]), "", ""⟩)).2 = some s ∧
        s ≠ "") :=
  fetch_current_payload_error_partition "Almaty" "KEY" "metric" "ru"
    (Except.ok ⟨200, some (Json.obj [("name", Json.str "Almaty")]), "", ""⟩)
    (by
      intro r hr _
      cases hr
      intro hb
      simp at hb)

/-- C5 counterexample: a 404 whose body is the JSON literal `true`
parses as JSON but is not a dict, so `err_json.get("message")` raises
and the code falls back to the raw response text `"true"` — while the
claim's cascade ("otherwise the string form of the parsed body") would
give `str(True) = "True"`. -/
theorem non200_message_spec_mismatch :
    fetch_forecast "Paris" "k" "metric" "en"
        (Except.ok ⟨404, some (Json.bool true), "true", ""⟩)
      = some (none, some "HTTP 404: true") ∧
    "HTTP 404: " ++ specNon200Message ⟨404, some (Json.bool true), "true", ""⟩
      = "HTTP 404: True" ∧
    ("HTTP 404: true" : String) ≠ "HTTP 404: True" :=
  ⟨rfl, rfl, by decide⟩

/-- C5 (amended): on any non-200 response both fetchers return a `None`
payload and the error string `"HTTP {status}: {message}"`, where the
message is the parsed body's `message` field when the body parses as a
JSON object with a truthy message, otherwise the string form of that
object; for any other body — non-object JSON included — it is the raw
response text. -/
theorem non200_error_message_format (city apiKey units lang : String)
    (r : HttpResponse) (h : r.status ≠ 200) :
    fetch_current_weather city apiKey units lang (Except.ok r)
      = (none, some (httpError r)) ∧
    fetch_forecast city apiKey units lang (Except.ok r)
      = some (none, some (httpError r)) := by
  constructor
  · simp [fetch_current_weather, h]
  · simp [fetch_forecast, h]

/-- C5 witness: the spec's own scenario — HTTP 404 with body
`"message": "city not found"` yields `(None, "HTTP 404: city not
found")`. -/
theorem non200_error_message_format_witness :
    fetch_forecast "Almaty" "k" "metric" "ru"
      (Except.ok ⟨404, some (Json.obj [("message", Json.str "city not found")]), "", ""⟩)
      = some (none, some "HTTP 404: city not found") := by
  have h := (non200_error_message_format "Almaty" "k" "metric" "ru"
    ⟨404, some (Json.obj [("message", Json.str "city not found")]), "", ""⟩
    (by decide)).2
  rw [h]
  rfl


/-- Inversion of a successful `fetch_forecast`: a `(table, None)`
result can only arise from a non-empty entry list, and the table is its
normalization. -/
theorem fetch_forecast_success_inv (city apiKey units lang : String)
    (net : Except String HttpResponse) (t : Table)
    (h : fetch_forecast city apiKey units lang net = some (some t, none)) :
    ∃ items : List Json, items ≠ [] ∧ t = forecastTable items := by
  cases net with
  | error exc => simp [fetch_forecast] at h
  | ok r =>
    simp only [fetch_forecast] at h
    split at h
    · simp at h
    · split at h
      · simp at h
      · next fs =>
        split at h
        · simp at h
        · next htr =>
          split at h
          · next items heq =>
            split at h
            · simp only [Option.some.injEq, Prod.mk.injEq, and_true] at h
              refine ⟨items, ?_, h.symm⟩
              intro hnil
              rw [heq, hnil] at htr
              simp [pyTruthy] at htr
            · simp at h
          · simp at h
      · simp at h

/-- C3: on an HTTP 200 whose parsed object has no `list` field or an
empty `list`, `fetch_forecast` returns exactly
`(None, "Empty forecast list from API")`; and whenever it succeeds the
returned table is non-empty — it has at least one column and every
column holds one cell per forecast entry of a non-empty entry list. -/
theorem forecast_empty_list_error (city apiKey units lang : String) :
    (∀ (r : HttpResponse) (fs : List (String × Json)), r.status = 200 →
      r.body = some (Json.obj fs) →
      (fs.lookup "list" = none ∨ fs.lookup "list" = some (Json.arr [])) →
      fetch_forecast city apiKey units lang (Except.ok r) =
        some (none, some "Empty forecast list from API")) ∧
    (∀ (net : Except String HttpResponse) (t : Table),
      fetch_forecast city apiKey units lang net = some (some t, none) →
      t ≠ [] ∧ ∀ col ∈ t, col.2 ≠ []) := by
  constructor
  · intro r fs hst hb hl
    rcases hl with hl | hl <;>
      simp [fetch_forecast, hst, hb, hl, pyTruthy]
  · intro net t hsucc
    obtain ⟨items, hne, rfl⟩ := fetch_forecast_success_inv city apiKey units lang net t hsucc
    refine ⟨forecastTable_ne_nil items, ?_⟩
    intro col hcol hc
    have hlen := forecastTable_col_length items col hcol
    rw [hc] at hlen
    simp at hlen
    exact hne (List.length_eq_zero.mp hlen.symm)

/-- C3 witness: a 200 response with `list: []` yields the empty-list
error. -/
theorem forecast_empty_list_error_witness :
    fetch_forecast "Almaty" "k" "metric" "ru"
      (Except.ok ⟨200, some (Json.obj [("list", Json.arr [])]), "", ""⟩)
      = some (none, some "Empty forecast list from API") :=
  (forecast_empty_list_error "Almaty" "k" "metric" "ru").1
    ⟨200, some (Json.obj [("list", Json.arr [])]), "", ""⟩
    [("list", Json.arr [])] rfl rfl (Or.inr rfl)

/-- C2: whenever `fetch_forecast` succeeds (HTTP 200, parsed object
body, non-empty well-formed `list`), the result is the normalized table
and the five guaranteed columns are present in it; any of the five that
the source entries did not produce is filled with its documented
default (Python `None` for the numeric four, `""` for the description)
in every row. -/
theorem forecast_guaranteed_columns (city apiKey units lang : String)
    (r : HttpResponse) (fs : List (String × Json)) (items : List Json)
    (hst : r.status = 200) (hb : r.body = some (Json.obj fs))
    (hl : fs.lookup "list" = some (Json.arr items)) (hne : items ≠ [])
    (hwf : items.all wellFormedEntry = true) :
    fetch_forecast city apiKey units lang (Except.ok r) =
      some (some (forecastTable items), none) ∧
    (∀ d ∈ defaultCols, ((forecastTable items).lookup d.1).isSome = true) ∧
    (∀ d ∈ defaultCols, (forecastBase items).lookup d.1 = none →
      (forecastTable items).lookup d.1 = some (List.replicate items.length d.2)) := by
  refine ⟨?_, ?_, ?_⟩
  · have hie : items.isEmpty = false := by
      cases items with
      | nil => exact absurd rfl hne
      | cons a l => rfl
    simp [fetch_forecast, hst, hb, hl, pyTruthy, hie, hwf]
  · intro d hd
    unfold forecastTable
    exact applyDefaults_mem_isSome defaultCols items.length (forecastBase items) d hd
  · intro d hd hnone
    unfold forecastTable
    exact applyDefaults_lookup_default defaultCols items.length (forecastBase items) d
      (by decide) hd hnone

/-- C2 witness: one well-formed entry with empty `main` and `wind`
sub-objects and an empty weather list; the fetch succeeds and the
`main.temp` column is present. -/
theorem forecast_guaranteed_columns_witness :
    fetch_forecast "Almaty" "k" "metric" "ru"
      (Except.ok ⟨200, some (Json.obj [("list", Json.arr [Json.obj
        [("dt", Json.num 1760011200),
         ("dt_txt", Json.str "2025-10-09 15:00:00"),
         ("main", Json.obj []),
         ("wind", Json.obj []),
         ("weather", Json.arr []),
         ("clouds", Json.obj [])]])]), "", ""⟩) =
      some (some (forecastTable [Json.obj
        [("dt", Json.num 1760011200),
         ("dt_txt", Json.str "2025-10-09 15:00:00"),
         ("main", Json.obj []),
         ("wind", Json.obj []),
         ("weather", Json.arr []),
         ("clouds", Json.obj [])]]), none) ∧
    ((forecastTable [Json.obj
        [("dt", Json.num 1760011200),
         ("dt_txt", Json.str "2025-10-09 15:00:00"),
         ("main", Json.obj []),
         ("wind", Json.obj []),
         ("weather", Json.arr []),
         ("clouds", Json.obj [])]]).lookup "main.temp").isSome = true := by
  have h := forecast_guaranteed_columns "Almaty" "k" "metric" "ru"
    ⟨200, some (Json.obj [("list", Json.arr [Json.obj
        [("dt", Json.num 1760011200),
         ("dt_txt", Json.str "2025-10-09 15:00:00"),
         ("main", Json.obj []),
         ("wind", Json.obj []),
         ("weather", Json.arr []),
         ("clouds", Json.obj [])]])]), "", ""⟩
    [("list", Json.arr [Json.obj
        [("dt", Json.num 1760011200),
         ("dt_txt", Json.str "2025-10-09 15:00:00"),
         ("main", Json.obj []),
         ("wind", Json.obj []),
         ("weather", Json.arr []),
         ("clouds", Json.obj [])]])]
    [Json.obj
        [("dt", Json.num 1760011200),
         ("dt_txt", Json.str "2025-10-09 15:00:00"),
         ("main", Json.obj []),
         ("wind", Json.obj []),
         ("weather", Json.arr []),
         ("clouds", Json.obj [])]]
    rfl rfl rfl (by simp) rfl
  exact ⟨h.1, h.2.1 ("main.temp", Cell.jval Json.null) (by simp [defaultCols])⟩

/-- C6: in forecast normalization the flattened weather record of an
entry is the first element of its weather list; an empty weather list,
or a non-list weather value, contributes an empty record instead of
failing — and the entry's row is still produced: every column of the
normalized table has exactly one cell per entry. -/
theorem forecast_weather_first_element (items : List Json) :
    (∀ e ∈ items, ∀ (h : Json) (rest : List Json),
      entryLookup e "weather" = some (Json.arr (h :: rest)) → weather_main e = h) ∧
    (∀ e ∈ items, entryLookup e "weather" = some (Json.arr []) →
      weather_main e = Json.obj []) ∧
    (∀ e ∈ items, ∀ v : Json, entryLookup e "weather" = some v →
      (∀ l : List Json, v ≠ Json.arr l) → weather_main e = Json.obj []) ∧
    (∀ col ∈ forecastTable items, col.2.length = items.length) := by
  refine ⟨?_, ?_, ?_, ?_⟩
  · intro e _ h rest hw
    unfold weather_main
    rw [hw]
  · intro e _ hw
    unfold weather_main
    rw [hw]
  · intro e _ v hw hna
    unfold weather_main
    rw [hw]
    cases v with
    | arr l => exact absurd rfl (hna l)
    | null => rfl
    | bool b => rfl
    | num n => rfl
    | str s => rfl
    | obj fs => rfl
  · intro col hc
    exact forecastTable_col_length items col hc

/-- C6 witness: a one-element weather list is collapsed to its first
element. -/
theorem forecast_weather_first_element_witness :
    weather_main (Json.obj [("weather", Json.arr
        [Json.obj [("description", Json.str "scattered clouds")]])])
      = Json.obj [("description", Json.str "scattered clouds")] :=
  (forecast_weather_first_element [Json.obj [("weather", Json.arr
      [Json.obj [("description", Json.str "scattered clouds")]])]]).1
    (Json.obj [("weather", Json.arr
      [Json.obj [("description", Json.str "scattered clouds")]])])
    (List.mem_cons_self _ _)
    (Json.obj [("description", Json.str "scattered clouds")]) [] rfl

/-- C4: the credential resolver consults the secrets store, then the
environment variable, then the masked text input, and the first truthy
(non-empty) source wins.  A source past the winning one does not
influence the result at all: when the secrets value is non-empty the
result is independent of the environment and the input, and when the
environment value wins it is independent of the input.  When every
source is falsy, the (possibly empty) text-input string is returned. -/
theorem api_key_first_nonempty_source (secrets : Except Unit (Option String))
    (env : Option String) (ui : String) :
    (∀ s : String, s ≠ "" → secrets = Except.ok (some s) →
      get_api_key_from_env_or_ui secrets env ui = (some s, true) ∧
      ∀ (env2 : Option String) (ui2 : String),
        get_api_key_from_env_or_ui secrets env2 ui2 = (some s, true)) ∧
    (∀ e : String, e ≠ "" →
      (secrets = Except.error () ∨ secrets = Except.ok none ∨
        secrets = Except.ok (some "")) →
      env = some e →
      get_api_key_from_env_or_ui secrets env ui = (some e, false) ∧
      ∀ ui2 : String,
        get_api_key_from_env_or_ui secrets env ui2 = (some e, false)) ∧
    ((secrets = Except.error () ∨ secrets = Except.ok none ∨
        secrets = Except.ok (some "")) →
      (env = none ∨ env = some "") →
      get_api_key_from_env_or_ui secrets env ui = (some ui, false)) := by
  refine ⟨?_, ?_, ?_⟩
  · intro s hs hsec
    subst hsec
    have hbf : (s == "") = false := beq_eq_false_iff_ne.mpr hs
    constructor
    · simp [get_api_key_from_env_or_ui, pyStrOptTruthy, hbf]
    · intro env2 ui2
      simp [get_api_key_from_env_or_ui, pyStrOptTruthy, hbf]
  · intro e he hsec henv
    subst henv
    have hbe : (e == "") = false := beq_eq_false_iff_ne.mpr he
    rcases hsec with rfl | rfl | rfl <;>
      exact ⟨by simp [get_api_key_from_env_or_ui, pyStrOptTruthy, hbe],
        fun ui2 => by simp [get_api_key_from_env_or_ui, pyStrOptTruthy, hbe]⟩
  · intro hsec henv
    rcases hsec with rfl | rfl | rfl <;> rcases henv with rfl | rfl <;>
      simp [get_api_key_from_env_or_ui, pyStrOptTruthy]

/-- C4 witness: a non-empty secrets-store value wins over a non-empty
environment value and a filled text input. -/
theorem api_key_first_nonempty_source_witness :
    get_api_key_from_env_or_ui (Except.ok (some "SECRETKEY")) (some "ENVKEY") "UIKEY"
      = (some "SECRETKEY", true) :=
  ((api_key_first_nonempty_source (Except.ok (some "SECRETKEY")) (some "ENVKEY")
    "UIKEY").1 "SECRETKEY" (by decide) rfl).1

/-- C9: with the memoizing `st.cache_data` wrapper, a second call with
the same (city, api_key, units, lang) tuple returns a value equal to
the first call's result and does not run the underlying
network-hitting body (the flag is `false`), for both fetchers. -/
theorem cached_fetch_no_second_request
    (netC netF : ReqParams → Except String HttpResponse)
    (cacheC : MemoTable (Option Json × Option String))
    (cacheF : MemoTable (Option (Option Table × Option String)))
    (p : ReqParams) :
    ((cachedFetchCurrent netC (cachedFetchCurrent netC cacheC p).2.1 p).1 =
        (cachedFetchCurrent netC cacheC p).1 ∧
      (cachedFetchCurrent netC (cachedFetchCurrent netC cacheC p).2.1 p).2.2 = false) ∧
    ((cachedFetchForecast netF (cachedFetchForecast netF cacheF p).2.1 p).1 =
        (cachedFetchForecast netF cacheF p).1 ∧
      (cachedFetchForecast netF (cachedFetchForecast netF cacheF p).2.1 p).2.2 = false) := by
  constructor
  · cases h : memoFind p cacheC with
    | some v => constructor <;> simp [cachedFetchCurrent, h]
    | none => constructor <;> simp [cachedFetchCurrent, h, memoFind]
  · cases h : memoFind p cacheF with
    | some v => constructor <;> simp [cachedFetchForecast, h]
    | none => constructor <;> simp [cachedFetchForecast, h, memoFind]

/-- C10: `format_location_block` yields the em-dash placeholder when
the payload's name is absent, `None`, or empty, and otherwise the
string `"{name}, {country}"` with the country read from the `sys`
sub-object, defaulting to the empty string when absent (hypotheses:
the payload is a dict and its `sys` value, when present, is a dict —
otherwise the Python code raises). -/
theorem format_location_block_spec (fs sfs : List (String × Json))
    (hsys : fs.lookup "sys" = some (Json.obj sfs) ∨
      (fs.lookup "sys" = none ∧ sfs = [])) :
    ((fs.lookup "name" = none ∨ fs.lookup "name" = some Json.null ∨
        fs.lookup "name" = some (Json.str "")) →
      format_location_block (Json.obj fs) = some "—") ∧
    (∀ s : String, s ≠ "" → fs.lookup "name" = some (Json.str s) →
      format_location_block (Json.obj fs) =
        some (s ++ ", " ++ (match sfs.lookup "country" with
          | some c => pyStr c
          | none => ""))) := by
  constructor
  · intro hname
    rcases hsys with hs | ⟨hs, rfl⟩ <;>
      rcases hname with hn | hn | hn <;>
        simp [format_location_block, hs, hn, locString, pyOptTruthy, pyTruthy]
  · intro s hsne hn
    have hbf : (s == "") = false := beq_eq_false_iff_ne.mpr hsne
    rcases hsys with hs | ⟨hs, rfl⟩
    · cases hc : sfs.lookup "country" with
      | none =>
        simp [format_location_block, hs, hn, hc, locString, pyOptTruthy, pyTruthy,
          pyStr, bne, hbf, hsne]
      | some c =>
        simp [format_location_block, hs, hn, hc, locString, pyOptTruthy, pyTruthy,
          pyStr, bne, hbf, hsne]
    · simp [format_location_block, hs, hn, locString, pyOptTruthy, pyTruthy,
        pyStr, bne, hbf, hsne, List.lookup]

/-- C10 witness: a payload with name and country present formats as
`"{name}, {country}"`. -/
theorem format_location_block_spec_witness :
    format_location_block (Json.obj
        [("name", Json.str "Almaty"), ("sys", Json.obj [("country", Json.str "KZ")])])
      = some "Almaty, KZ" := by
  have h := (format_location_block_spec
    [("name", Json.str "Almaty"), ("sys", Json.obj [("country", Json.str "KZ")])]
    [("country", Json.str "KZ")] (Or.inl rfl)).2 "Almaty" (by decide) rfl
  rw [h]
  rfl
